import Mathlib

/-!
Shallow embedding of the agent-pipeline engine (src/app) in Lean 4.

The embedding models the repository's core: the node executors
(`src/app/agents/nodes.py`), the routing functions, the graph builder
(`src/app/agents/builder.py`), the graph cache (`src/app/agents/cache.py`)
and the run executor (`src/app/runtime.py`).  External capabilities (the
Anthropic model invocation and the tool implementations) are out of scope
per the source's own architecture; the model/tool loop of a node is
represented by an oracle value (`LoopOutcome`) describing what the loop
produced.  Python exceptions are modelled with `PyErr` and `Except`;
Python dicts by association lists with overwrite-on-insert semantics;
`json.loads` by a fuel-bounded recursive-descent parser over the JSON
grammar (integers only: none of the verified behaviours involve float
literals).
-/

namespace Engine

/-- A parsed JSON value, as produced by Python's `json.loads`.
Numbers are modelled as integers (no claim involves float literals). -/
inductive Json where
  | null : Json
  | bool (b : Bool) : Json
  | num (n : Int) : Json
  | str (s : String) : Json
  | arr (elems : List Json) : Json
  | obj (fields : List (String × Json)) : Json

mutual

def Json.decEq : (a b : Json) → Decidable (a = b)
  | .null, .null => isTrue rfl
  | .bool a, .bool b =>
    if h : a = b then isTrue (by rw [h]) else isFalse (by simp [h])
  | .num a, .num b =>
    if h : a = b then isTrue (by rw [h]) else isFalse (by simp [h])
  | .str a, .str b =>
    if h : a = b then isTrue (by rw [h]) else isFalse (by simp [h])
  | .arr a, .arr b =>
    match Json.decEqList a b with
    | isTrue h => isTrue (by rw [h])
    | isFalse h => isFalse (by simp [h])
  | .obj a, .obj b =>
    match Json.decEqFields a b with
    | isTrue h => isTrue (by rw [h])
    | isFalse h => isFalse (by simp [h])
  | .null, .bool _ => isFalse (fun h => Json.noConfusion h)
  | .null, .num _ => isFalse (fun h => Json.noConfusion h)
  | .null, .str _ => isFalse (fun h => Json.noConfusion h)
  | .null, .arr _ => isFalse (fun h => Json.noConfusion h)
  | .null, .obj _ => isFalse (fun h => Json.noConfusion h)
  | .bool _, .null => isFalse (fun h => Json.noConfusion h)
  | .bool _, .num _ => isFalse (fun h => Json.noConfusion h)
  | .bool _, .str _ => isFalse (fun h => Json.noConfusion h)
  | .bool _, .arr _ => isFalse (fun h => Json.noConfusion h)
  | .bool _, .obj _ => isFalse (fun h => Json.noConfusion h)
  | .num _, .null => isFalse (fun h => Json.noConfusion h)
  | .num _, .bool _ => isFalse (fun h => Json.noConfusion h)
  | .num _, .str _ => isFalse (fun h => Json.noConfusion h)
  | .num _, .arr _ => isFalse (fun h => Json.noConfusion h)
  | .num _, .obj _ => isFalse (fun h => Json.noConfusion h)
  | .str _, .null => isFalse (fun h => Json.noConfusion h)
  | .str _, .bool _ => isFalse (fun h => Json.noConfusion h)
  | .str _, .num _ => isFalse (fun h => Json.noConfusion h)
  | .str _, .arr _ => isFalse (fun h => Json.noConfusion h)
  | .str _, .obj _ => isFalse (fun h => Json.noConfusion h)
  | .arr _, .null => isFalse (fun h => Json.noConfusion h)
  | .arr _, .bool _ => isFalse (fun h => Json.noConfusion h)
  | .arr _, .num _ => isFalse (fun h => Json.noConfusion h)
  | .arr _, .str _ => isFalse (fun h => Json.noConfusion h)
  | .arr _, .obj _ => isFalse (fun h => Json.noConfusion h)
  | .obj _, .null => isFalse (fun h => Json.noConfusion h)
  | .obj _, .bool _ => isFalse (fun h => Json.noConfusion h)
  | .obj _, .num _ => isFalse (fun h => Json.noConfusion h)
  | .obj _, .str _ => isFalse (fun h => Json.noConfusion h)
  | .obj _, .arr _ => isFalse (fun h => Json.noConfusion h)

def Json.decEqList : (a b : List Json) → Decidable (a = b)
  | [], [] => isTrue rfl
  | [], _ :: _ => isFalse (fun h => List.noConfusion h)
  | _ :: _, [] => isFalse (fun h => List.noConfusion h)
  | x :: xs, y :: ys =>
    match Json.decEq x y, Json.decEqList xs ys with
    | isTrue h1, isTrue h2 => isTrue (by rw [h1, h2])
    | isFalse h1, _ => isFalse (by simp [h1])
    | _, isFalse h2 => isFalse (by simp [h2])

def Json.decEqFields : (a b : List (String × Json)) → Decidable (a = b)
  | [], [] => isTrue rfl
  | [], _ :: _ => isFalse (fun h => List.noConfusion h)
  | _ :: _, [] => isFalse (fun h => List.noConfusion h)
  | (k1, v1) :: xs, (k2, v2) :: ys =>
    match String.decEq k1 k2, Json.decEq v1 v2, Json.decEqFields xs ys with
    | isTrue hk, isTrue hv, isTrue ht => isTrue (by rw [hk, hv, ht])
    | isFalse hk, _, _ => isFalse (by simp [hk])
    | _, isFalse hv, _ => isFalse (by simp [hv])
    | _, _, isFalse ht => isFalse (by simp [ht])

end

instance : DecidableEq Json := Json.decEq

instance {ε α : Type} [DecidableEq ε] [DecidableEq α] : DecidableEq (Except ε α) := fun a b =>
  match a, b with
  | .ok x, .ok y =>
    if h : x = y then isTrue (by rw [h]) else isFalse (by simp [h])
  | .error x, .error y =>
    if h : x = y then isTrue (by rw [h]) else isFalse (by simp [h])
  | .ok _, .error _ => isFalse (fun h => Except.noConfusion h)
  | .error _, .ok _ => isFalse (fun h => Except.noConfusion h)

/-- Python exceptions that the embedded code can raise. -/
inductive PyErr where
  | jsonDecodeError : PyErr
  | attributeError (msg : String) : PyErr
  | typeError (msg : String) : PyErr
  | valueError (msg : String) : PyErr
  | indexError (msg : String) : PyErr
  | keyError (msg : String) : PyErr
  | graphRecursionError : PyErr
deriving DecidableEq

/-- Models `str(e)` for an exception — the text interpolated into error events. -/
def pyErrMsg : PyErr → String
  | .jsonDecodeError => "Expecting value"
  | .attributeError m => m
  | .typeError m => m
  | .valueError m => m
  | .indexError m => m
  | .keyError m => m
  | .graphRecursionError => "Recursion limit of 25 reached"

/-- Python `type(v).__name__` for a decoded JSON value. -/
def pyTypeName : Json → String
  | .null => "NoneType"
  | .bool _ => "bool"
  | .num _ => "int"
  | .str _ => "str"
  | .arr _ => "list"
  | .obj _ => "dict"

/-- Python truthiness of a decoded JSON value. -/
def jsonTruthy : Json → Bool
  | .null => false
  | .bool b => b
  | .num n => n != 0
  | .str s => s != ""
  | .arr l => !l.isEmpty
  | .obj l => !l.isEmpty

/-- Association-list lookup — Python `d[k]` / `d.get(k)` on a dict whose
keys are unique by construction (inserts overwrite). -/
def pyLookup {α : Type} : List (String × α) → String → Option α
  | [], _ => none
  | (k, v) :: rest, key => if k = key then some v else pyLookup rest key

/-- Python dict insert: overwriting an existing key keeps its position,
otherwise the pair is appended (insertion order). -/
def pyDictInsert {α : Type} : List (String × α) → String → α → List (String × α)
  | [], key, v => [(key, v)]
  | (k, w) :: rest, key, v =>
    if k = key then (k, v) :: rest else (k, w) :: pyDictInsert rest key v

/-- Python `d.get(k, default)`. -/
def objGetD (fields : List (String × Json)) (key : String) (dflt : Json) : Json :=
  match pyLookup fields key with
  | some v => v
  | none => dflt

/-- Python `needle in haystack` on strings (substring test). -/
def strContains (haystack needle : String) : Bool :=
  decide (needle.data <:+: haystack.data)

/-- Python `s.lower()` (ASCII lowering suffices for the engine's inputs). -/
def pyLower (s : String) : String :=
  String.mk (s.data.map Char.toLower)

/-- Python `s.strip()` — drop leading and trailing whitespace. -/
def pyStrip (s : String) : String :=
  String.mk (((s.data.dropWhile Char.isWhitespace).reverse.dropWhile Char.isWhitespace).reverse)

/-- JSON whitespace skipping (space, tab, newline, carriage return). -/
def skipWs : List Char → List Char
  | [] => []
  | c :: cs =>
    if c = ' ' ∨ c = '\t' ∨ c = '\n' ∨ c = '\r' then skipWs cs else c :: cs

def hexVal (c : Char) : Option Nat :=
  if '0' ≤ c ∧ c ≤ '9' then some (c.toNat - '0'.toNat)
  else if 'a' ≤ c ∧ c ≤ 'f' then some (c.toNat - 'a'.toNat + 10)
  else if 'A' ≤ c ∧ c ≤ 'F' then some (c.toNat - 'A'.toNat + 10)
  else none

/-- Parse the body of a JSON string literal (after the opening quote),
returning the string and the input after the closing quote. -/
def parseStringBody : Nat → List Char → List Char → Option (String × List Char)
  | 0, _, _ => none
  | _ + 1, _acc, [] => none
  | fuel + 1, acc, c :: cs =>
    if c = '"' then some (String.mk acc.reverse, cs)
    else if c = '\\' then
      match cs with
      | [] => none
      | e :: cs2 =>
        if e = '"' then parseStringBody fuel ('"' :: acc) cs2
        else if e = '\\' then parseStringBody fuel ('\\' :: acc) cs2
        else if e = '/' then parseStringBody fuel ('/' :: acc) cs2
        else if e = 'b' then parseStringBody fuel ('\x08' :: acc) cs2
        else if e = 'f' then parseStringBody fuel ('\x0c' :: acc) cs2
        else if e = 'n' then parseStringBody fuel ('\n' :: acc) cs2
        else if e = 'r' then parseStringBody fuel ('\r' :: acc) cs2
        else if e = 't' then parseStringBody fuel ('\t' :: acc) cs2
        else if e = 'u' then
          match cs2 with
          | a :: b :: c1 :: d :: cs3 =>
            match hexVal a, hexVal b, hexVal c1, hexVal d with
            | some x, some y, some z, some w =>
              let n := ((x * 16 + y) * 16 + z) * 16 + w
              if Nat.isValidChar n then
                parseStringBody fuel (Char.ofNat n :: acc) cs3
              else none
            | _, _, _, _ => none
          | _ => none
        else none
    else if c.toNat < 0x20 then none
    else parseStringBody fuel (c :: acc) cs

/-- Consume a maximal run of decimal digits. -/
def takeDigits : List Char → List Char × List Char
  | [] => ([], [])
  | c :: cs =>
    if c.isDigit then
      let (ds, rest) := takeDigits cs
      (c :: ds, rest)
    else ([], c :: cs)

def digitsToNat (ds : List Char) : Nat :=
  ds.foldl (fun acc c => acc * 10 + (c.toNat - '0'.toNat)) 0

/-- Parse a JSON number.  Floats (`.`, `e`, `E` continuations) are outside
the model and fail the parse; no verified behaviour feeds float literals. -/
def parseNumber (cs : List Char) : Option (Json × List Char) :=
  let (neg, cs1) := match cs with
    | '-' :: rest => (true, rest)
    | _ => (false, cs)
  let (ds, rest) := takeDigits cs1
  match ds with
  | [] => none
  | d0 :: dtail =>
    if d0 = '0' ∧ dtail ≠ [] then none
    else
      match rest with
      | '.' :: _ => none
      | 'e' :: _ => none
      | 'E' :: _ => none
      | _ =>
        let n : Int := Int.ofNat (digitsToNat ds)
        some (.num (if neg then -n else n), rest)

mutual

/-- Recursive-descent JSON value parser (fuel-bounded; the fuel is
consumed at least once per input character, so `length + 2` suffices). -/
def parseValue : Nat → List Char → Option (Json × List Char)
  | 0, _ => none
  | fuel + 1, cs =>
    match skipWs cs with
    | [] => none
    | c :: rest =>
      if c = '"' then
        match parseStringBody (rest.length + 1) [] rest with
        | some (s, r) => some (.str s, r)
        | none => none
      else if c = '\x7b' then
        match skipWs rest with
        | '\x7d' :: r2 => some (.obj [], r2)
        | r2 =>
          match parseMembers fuel r2 [] with
          | some (fs, r3) => some (.obj fs, r3)
          | none => none
      else if c = '[' then
        match skipWs rest with
        | ']' :: r2 => some (.arr [], r2)
        | r2 =>
          match parseElems fuel r2 [] with
          | some (es, r3) => some (.arr es, r3)
          | none => none
      else if c = 't' then
        match rest with
        | 'r' :: 'u' :: 'e' :: r2 => some (.bool true, r2)
        | _ => none
      else if c = 'f' then
        match rest with
        | 'a' :: 'l' :: 's' :: 'e' :: r2 => some (.bool false, r2)
        | _ => none
      else if c = 'n' then
        match rest with
        | 'u' :: 'l' :: 'l' :: r2 => some (.null, r2)
        | _ => none
      else parseNumber (c :: rest)

/-- Parse object members (duplicate keys overwrite, as in Python dicts). -/
def parseMembers : Nat → List Char → List (String × Json) →
    Option (List (String × Json) × List Char)
  | 0, _, _ => none
  | fuel + 1, cs, acc =>
    match skipWs cs with
    | '"' :: rest =>
      match parseStringBody (rest.length + 1) [] rest with
      | some (key, r1) =>
        match skipWs r1 with
        | ':' :: r2 =>
          match parseValue fuel r2 with
          | some (v, r3) =>
            let acc2 := pyDictInsert acc key v
            match skipWs r3 with
            | ',' :: r4 => parseMembers fuel r4 acc2
            | '\x7d' :: r4 => some (acc2, r4)
            | _ => none
          | none => none
        | _ => none
      | none => none
    | _ => none

/-- Parse array elements. -/
def parseElems : Nat → List Char → List Json → Option (List Json × List Char)
  | 0, _, _ => none
  | fuel + 1, cs, acc =>
    match parseValue fuel cs with
    | some (v, r1) =>
      match skipWs r1 with
      | ',' :: r2 => parseElems fuel r2 (v :: acc)
      | ']' :: r2 => some ((v :: acc).reverse, r2)
      | _ => none
    | none => none

end

/-- Models `json.loads` — parse one JSON document, requiring only whitespace to
remain; any failure is a `JSONDecodeError`. -/
def jsonLoads (s : String) : Except PyErr Json :=
  match parseValue (s.data.length + 2) s.data with
  | some (v, rest) =>
    if skipWs rest = [] then .ok v else .error .jsonDecodeError
  | none => .error .jsonDecodeError

mutual

/-- Python `repr` of a decoded JSON value (container element rendering).
String escaping inside the quotes is not reproduced; no verified
behaviour depends on it. -/
def pyRepr : Json → String
  | .null => "None"
  | .bool true => "True"
  | .bool false => "False"
  | .num n => toString n
  | .str s => "\x27" ++ s ++ "\x27"
  | .arr l => "[" ++ pyReprList l ++ "]"
  | .obj fs => "\x7b" ++ pyReprFields fs ++ "\x7d"

def pyReprList : List Json → String
  | [] => ""
  | [v] => pyRepr v
  | v :: rest => pyRepr v ++ ", " ++ pyReprList rest

def pyReprFields : List (String × Json) → String
  | [] => ""
  | [(k, v)] => "\x27" ++ k ++ "\x27: " ++ pyRepr v
  | (k, v) :: rest => "\x27" ++ k ++ "\x27: " ++ pyRepr v ++ ", " ++ pyReprFields rest

end

/-- Python `str` of a decoded JSON value. -/
def pyStr : Json → String
  | .str s => s
  | v => pyRepr v

/-! ## Data model (`src/app/agents/registry.py`, `src/app/config.py`,
`src/app/agents/state.py`) -/

/-- Models `registry.AgentTypeDefinition`. -/
structure AgentTypeDefinition where
  name : String
  description : String
  model : String
  tools : List String
deriving DecidableEq

/-- Models `registry.ResolvedAgent`. -/
structure ResolvedAgent where
  name : String
  type : String
  description : String
  model : String
  tools : List String
  prompt : String
deriving DecidableEq

/-- Models `config.SystemAgentRef`. -/
structure SystemAgentRef where
  type : String
  prompt : String
deriving DecidableEq

/-- Models `config.SystemConfig` (the fields relevant to compilation and
hashing; validators elsewhere guarantee nothing this development uses). -/
structure SystemConfig where
  id : String
  name : String
  description : Option String
  topology : String
  agents : List SystemAgentRef
deriving DecidableEq

/-- Models `registry.AGENT_TYPE_REGISTRY`, in definition order. -/
def AGENT_TYPE_REGISTRY : List (String × AgentTypeDefinition) :=
  [ ("researcher", ⟨"researcher", "Expert at web research and data analysis.",
      "claude-sonnet-4-20250514",
      ["tavily_search", "ashby_fetch_jobs", "ashby_resolve_slug",
       "linkedin_company", "linkedin_employees", "parse_document"]⟩),
    ("coder", ⟨"coder", "Senior software engineer and architect.",
      "claude-sonnet-4-20250514", ["calculate", "parse_document"]⟩),
    ("writer", ⟨"writer", "Creative writer for marketing and content.",
      "claude-sonnet-4-20250514", ["parse_document"]⟩),
    ("analyst", ⟨"analyst", "Business analyst specialising in structured reasoning.",
      "claude-sonnet-4-20250514",
      ["calculate", "tavily_search", "score_candidate", "parse_document"]⟩),
    ("validator", ⟨"validator", "Reviews pipeline output and accepts or rejects it.",
      "claude-sonnet-4-20250514", ["accept_output", "reject_output"]⟩),
    ("sourcer", ⟨"sourcer", "Finds and profiles candidates on LinkedIn for a given role.",
      "claude-sonnet-4-20250514",
      ["tavily_search", "linkedin_employees", "linkedin_profile"]⟩),
    ("screener", ⟨"screener", "Parses resumes and scores candidates against a job description.",
      "claude-sonnet-4-20250514", ["parse_document", "score_candidate"]⟩),
    ("recruiter", ⟨"recruiter", "End-to-end recruiting coordinator — discovers roles, sources, and scores candidates.",
      "claude-sonnet-4-20250514",
      ["ashby_resolve_slug", "ashby_fetch_jobs", "linkedin_company",
       "linkedin_employees", "linkedin_profile", "score_candidate"]⟩),
    ("notifier", ⟨"notifier", "Sends notifications via email (Resend) or Telegram based on the requested channel.",
      "claude-sonnet-4-20250514", ["send_email", "send_telegram_message"]⟩),
    ("payments", ⟨"payments", "Handles Stripe payments, customers, invoices, and subscriptions.",
      "claude-sonnet-4-20250514",
      ["stripe_create_payment_intent", "stripe_create_customer", "stripe_get_customer",
       "stripe_list_charges", "stripe_create_invoice", "stripe_create_subscription"]⟩) ]

/-- Models `registry.resolve_agent_type` — raises `ValueError` for an unknown type. -/
def resolve_agent_type (type_name : String) : Except PyErr AgentTypeDefinition :=
  match pyLookup AGENT_TYPE_REGISTRY type_name with
  | some d => .ok d
  | none => .error (.valueError ("Unknown agent type \x27" ++ type_name ++ "\x27."))

/-- Models `registry.merge_agent` — merge a config reference with its type
definition; the instance name is `"{type}_{index}"`. -/
def merge_agent (ref : SystemAgentRef) (index : Nat) : Except PyErr ResolvedAgent :=
  match resolve_agent_type ref.type with
  | .ok typedef =>
    .ok { name := ref.type ++ "_" ++ toString index,
          type := ref.type,
          description := typedef.description,
          model := typedef.model,
          tools := typedef.tools,
          prompt := ref.prompt }
  | .error e => .error e

/-- The names registered in `app.tools._registry` once all tool modules
are imported (`tools/__init__.py` plus the nine tool modules).
`resolve_tools` raises `ValueError` at graph-build time for any name
outside this list. -/
def REGISTERED_TOOLS : List String :=
  ["calculate", "accept_output", "reject_output", "tavily_search",
   "ashby_fetch_jobs", "ashby_resolve_slug", "linkedin_company",
   "linkedin_employees", "linkedin_profile", "parse_document",
   "score_candidate", "send_email", "send_telegram_message",
   "stripe_create_payment_intent", "stripe_create_customer",
   "stripe_get_customer", "stripe_list_charges", "stripe_create_invoice",
   "stripe_create_subscription"]

/-- Models `tools.resolve_tools` — validity of an agent's tool-name list
(the resolved `BaseTool` objects themselves are external capabilities). -/
def resolve_tools_ok (names : List String) : Bool :=
  names.all (fun n => n ∈ REGISTERED_TOOLS)

/-- A message in the LangGraph state; only its `content` drives control
flow (`HumanMessage` / `AIMessage` / `ToolMessage` all expose `.content`). -/
structure Message where
  content : Json
deriving DecidableEq

/-- Models `state.AgentState` — the value threaded through every node. -/
structure AgentState where
  messages : List Message
  current_agent : Option String
  final_response : Option Json
  retry_count : Int
  validation_result : Option String
deriving DecidableEq

/-! ## Node executors (`src/app/agents/nodes.py`)

A node's interaction with the Anthropic model and the tool objects is an
external capability; one node execution's observable outcome is either
the final response of the tool-call loop (with the `ToolMessage` contents
produced along the way, and the response of the extra no-tools invocation
that the empty-content guard would issue) or an exception caught by the
node's `try`. -/

/-- Outcome of one node's model/tool loop. -/
inductive LoopOutcome where
  | ok (toolResults : List String) (response : Json) (textRetry : Json) : LoopOutcome
  | err (msg : String) : LoopOutcome
deriving DecidableEq

/-- Models `nodes._extract_content` — normalize Anthropic message content
(a string, or a list of content blocks) into one plain string.
(A non-string `"text"` value inside a block would make Python's
`"\n".join` raise `TypeError`; such blocks are rendered with `pyStr`
here and are unreached by every verified behaviour.) -/
def extract_content : Json → String
  | .str s => s
  | .arr blocks => String.intercalate "\n" (blocks.map fun b =>
      match b with
      | .obj kvs =>
        (match pyLookup kvs "text" with
         | some (.str t) => t
         | some v => pyStr v
         | none => pyStr (.obj kvs))
      | v => pyStr v)
  | v => pyStr v

/-- The partial state dict a node returns; LangGraph merges it into the
state (the `add_messages` reducer appends, other channels overwrite).
`validation` is present exactly when the node is a validator
(`validation_result` and `retry_count` keys). -/
structure StateUpdate where
  messages : List Message
  current_agent : String
  final_response : Json
  validation : Option (String × Int)
deriving DecidableEq

/-- LangGraph state merge: `messages` appends, the other channels are
overwritten by the update's values (absent keys leave the channel). -/
def applyUpdate (state : AgentState) (u : StateUpdate) : AgentState :=
  { messages := state.messages ++ u.messages,
    current_agent := some u.current_agent,
    final_response := some u.final_response,
    retry_count := match u.validation with
      | some (_, rc) => rc
      | none => state.retry_count,
    validation_result := match u.validation with
      | some (vr, _) => some vr
      | none => state.validation_result }

/-- Models `nodes.make_agent_node`'s inner `agent_node`: the tool-call loop plus
the empty-content guard; on failure, an error-content `AIMessage` and the
exception text as `final_response`. -/
def agent_node (agent : ResolvedAgent) (_state : AgentState) (oc : LoopOutcome) : StateUpdate :=
  match oc with
  | .ok _ response textRetry =>
    let response := if agent.tools ≠ [] ∧ extract_content response = "" then textRetry else response
    { messages := [⟨response⟩],
      current_agent := agent.name,
      final_response := .str (extract_content response),
      validation := none }
  | .err msg =>
    { messages := [⟨.str ("Error in agent \x27" ++ agent.name ++ "\x27: " ++ msg)⟩],
      current_agent := agent.name,
      final_response := .str msg,
      validation := none }

/-- The validator's sentinel scan over the tool-result contents of its
own loop: first match wins in message order, `__ACCEPTED__` checked
before `__REJECTED__:` within each message. -/
def scanToolResults : List String → Option String
  | [] => none
  | tr :: rest =>
    if strContains tr "__ACCEPTED__" then some "accepted"
    else if strContains tr "__REJECTED__:" then some "rejected"
    else scanToolResults rest

/-- Models `nodes.make_validator_node`'s inner `validator_node`: the loop, the
sentinel scan (no sentinel found — including when no tool ran — is an
implicit accept), the retry increment on rejection, and the
failure-as-rejection path. -/
def validator_node (agent : ResolvedAgent) (state : AgentState) (oc : LoopOutcome) : StateUpdate :=
  match oc with
  | .ok toolResults response textRetry =>
    let response := if agent.tools ≠ [] ∧ extract_content response = "" then textRetry else response
    let validation_result := match scanToolResults toolResults with
      | some v => v
      | none => "accepted"
    let retry_count :=
      if validation_result = "rejected" then state.retry_count + 1 else state.retry_count
    { messages := [⟨response⟩],
      current_agent := agent.name,
      final_response := .str (extract_content response),
      validation := some (validation_result, retry_count) }
  | .err msg =>
    { messages := [⟨.str ("Error in validator \x27" ++ agent.name ++ "\x27: " ++ msg)⟩],
      current_agent := agent.name,
      final_response := .str msg,
      validation := some ("rejected", state.retry_count + 1) }

/-- Models `nodes.make_decentralised_node`'s inner node: identical update shape
to `agent_node` (the delegation instructions only extend the system
prompt handed to the external model). -/
def decentralised_node (agent : ResolvedAgent) (_all : List ResolvedAgent)
    (_state : AgentState) (oc : LoopOutcome) : StateUpdate :=
  match oc with
  | .ok _ response textRetry =>
    let response := if agent.tools ≠ [] ∧ extract_content response = "" then textRetry else response
    { messages := [⟨response⟩],
      current_agent := agent.name,
      final_response := .str (extract_content response),
      validation := none }
  | .err msg =>
    { messages := [⟨.str ("Error in agent \x27" ++ agent.name ++ "\x27: " ++ msg)⟩],
      current_agent := agent.name,
      final_response := .str msg,
      validation := none }

/-! ## Routing functions (`src/app/agents/nodes.py`) -/

/-- Models `builder.MAX_RETRIES`. -/
def MAX_RETRIES : Int := 3

/-- LangGraph's `END` sentinel node name. -/
def ENDs : String := "__end__"

/-- Models `route_decision`'s fallback: the first agent name appearing
case-insensitively as a substring of the raw text. -/
def routeFallbackScan (content : String) (agent_names : List String) : Option String :=
  agent_names.find? (fun n => strContains (pyLower content) (pyLower n))

/-- Models `nodes.route_decision` — parse the orchestrator's output.  A JSON
object with `"agent": "__done__"` terminates, adopting a truthy
`"response"` into `state["final_response"]` (the one state write any
router performs); `"agent"` naming a known specialist routes there; any
parse failure, non-dict payload (`AttributeError`, caught) or
unrecognised target falls back to the substring scan, then to
`"__done__"`.  Raises `IndexError` when the state has no messages
(`state["messages"][-1]`). -/
def route_decision (state : AgentState) (agent_names : List String) :
    Except PyErr (String × AgentState) :=
  match state.messages.getLast? with
  | none => .error (.indexError "list index out of range")
  | some last =>
    let content := extract_content last.content
    let fallback : String × AgentState :=
      match routeFallbackScan content agent_names with
      | some n => (n, state)
      | none => ("__done__", state)
    match jsonLoads (pyStrip content) with
    | .ok (.obj kvs) =>
      let target := objGetD kvs "agent" (.str "")
      if target = .str "__done__" then
        let response := objGetD kvs "response" (.str "")
        if jsonTruthy response then
          .ok ("__done__", { state with final_response := some response })
        else .ok ("__done__", state)
      else
        match target with
        | .str t => if t ∈ agent_names then .ok (t, state) else .ok fallback
        | _ => .ok fallback
    | _ => .ok fallback

/-- Models `nodes.route_delegation` — parse a decentralised agent's output for
`{"delegate": name}`; a known peer routes there, anything else (parse
failure, non-dict, unknown or absent target) terminates.  Raises
`IndexError` when the state has no messages. -/
def route_delegation (state : AgentState) (agent_names : List String) :
    Except PyErr String :=
  match state.messages.getLast? with
  | none => .error (.indexError "list index out of range")
  | some last =>
    let content := extract_content last.content
    match jsonLoads (pyStrip content) with
    | .ok (.obj kvs) =>
      match objGetD kvs "delegate" (.str "") with
      | .str t => if t ∈ agent_names then .ok t else .ok "__done__"
      | _ => .ok "__done__"
    | _ => .ok "__done__"

/-- Models `nodes.route_validation` — accepted terminates successfully; a
rejection retries the first agent until `retry_count` reaches
`MAX_RETRIES`, then terminates on the error path. -/
def route_validation (state : AgentState) (first_agent_name : String) : String :=
  if state.validation_result = some "accepted" then "__accepted__"
  else if state.retry_count ≥ MAX_RETRIES then "__error__"
  else first_agent_name

/-! ## Graph builder (`src/app/agents/builder.py`) -/

/-- The behaviour attached to a graph node. -/
inductive NodeKind where
  | agent (a : ResolvedAgent) : NodeKind
  | validator (a : ResolvedAgent) : NodeKind
  | decentralised (a : ResolvedAgent) (all : List ResolvedAgent) : NodeKind
deriving DecidableEq

/-- The router driving a conditional edge. -/
inductive RouterKind where
  | validation (first_agent_name : String) : RouterKind
  | decision (agent_names : List String) : RouterKind
  | delegation (agent_names : List String) : RouterKind
deriving DecidableEq

/-- A node's outgoing transition: a static edge or a conditional edge
with its destinations dict. -/
inductive EdgeSpec where
  | static (target : String) : EdgeSpec
  | conditional (router : RouterKind) (destinations : List (String × String)) : EdgeSpec
deriving DecidableEq

/-- A compiled `StateGraph`: named nodes, entry point, one outgoing
transition per node. -/
structure Graph where
  nodes : List (String × NodeKind)
  entry : String
  edges : List (String × EdgeSpec)
deriving DecidableEq

/-- Models `{name: name for name in names}` followed by `d["__done__"] = END` —
the destinations dict of the orchestrator and decentralised builders. -/
def fanDestinations (names : List String) : List (String × String) :=
  pyDictInsert (names.foldl (fun acc n => pyDictInsert acc n n) []) "__done__" ENDs

/-- The sequential builder's destinations dict literal
`{first: first, "__accepted__": END, "__error__": END}`. -/
def seqDestinations (first : String) : List (String × String) :=
  pyDictInsert (pyDictInsert (pyDictInsert [] first first) "__accepted__" ENDs) "__error__" ENDs

/-- Build-time validity of one agent's node: `resolve_tools` must accept
its tool names (a `ValueError` otherwise), and `StateGraph.add_node`
rejects duplicate node names. -/
def agentToolsOk (a : ResolvedAgent) : Bool :=
  resolve_tools_ok a.tools

/-- Models `builder._build_single` — `START → [agent] → END`.  The node factory
runs `resolve_tools` first. -/
def build_single (agent : ResolvedAgent) : Except PyErr Graph :=
  if agentToolsOk agent then
    .ok { nodes := [(agent.name, .agent agent)],
          entry := agent.name,
          edges := [(agent.name, .static ENDs)] }
  else .error (.valueError "Unknown tool(s)")

/-- Build-time checks shared by the multi-node builders: every agent's
tools resolve and node names are pairwise distinct (`add_node` raises on
a duplicate name). -/
def agentsAddable (agents : List ResolvedAgent) : Bool :=
  agents.all agentToolsOk && (agents.map (·.name)).Nodup

/-- Models `builder._build_sequential` — plain nodes chained in order into a
final validator whose conditional edge is driven by `route_validation`;
fewer than two agents degrade to the single build (`agents[0]` raising
`IndexError` on an empty list). -/
def build_sequential (agents : List ResolvedAgent) : Except PyErr Graph :=
  if agents.length < 2 then
    match agents with
    | [] => .error (.indexError "list index out of range")
    | a :: _ => build_single a
  else if agentsAddable agents then
    match agents with
    | [] => .error (.indexError "list index out of range")
    | a0 :: rest =>
      let validator := (a0 :: rest).getLast (List.cons_ne_nil a0 rest)
      let names := (a0 :: rest).map (·.name)
      .ok { nodes := ((a0 :: rest).dropLast.map fun a => (a.name, NodeKind.agent a)) ++
              [(validator.name, NodeKind.validator validator)],
            entry := a0.name,
            edges := (names.dropLast.zip names.tail).map (fun p => (p.1, EdgeSpec.static p.2)) ++
              [(validator.name,
                EdgeSpec.conditional (.validation a0.name) (seqDestinations a0.name))] }
  else .error (.valueError "invalid agent list")

/-- Models `builder._build_orchestrator` — the first agent routes to the
specialists via `route_decision`; every specialist returns
unconditionally to the first agent. -/
def build_orchestrator (_system : SystemConfig) (agents : List ResolvedAgent) :
    Except PyErr Graph :=
  match agents with
  | [] => .error (.indexError "list index out of range")
  | a0 :: rest =>
    if agentsAddable agents then
      let specialist_names := rest.map (·.name)
      .ok { nodes := agents.map fun a => (a.name, NodeKind.agent a),
            entry := a0.name,
            edges := (a0.name,
                EdgeSpec.conditional (.decision specialist_names) (fanDestinations specialist_names)) ::
              rest.map (fun a => (a.name, EdgeSpec.static a0.name)) }
    else .error (.valueError "invalid agent list")

/-- Models `builder._build_decentralised` — every agent is a delegating node
whose conditional edge is driven by `route_delegation` over the full
agent-name list (note: the routing agent's own name included). -/
def build_decentralised (agents : List ResolvedAgent) : Except PyErr Graph :=
  match agents with
  | [] => .error (.indexError "list index out of range")
  | a0 :: _ =>
    if agentsAddable agents then
      let agent_names := agents.map (·.name)
      .ok { nodes := agents.map fun a => (a.name, NodeKind.decentralised a agents),
            entry := a0.name,
            edges := agents.map fun a =>
              (a.name, EdgeSpec.conditional (.delegation agent_names) (fanDestinations agent_names)) }
    else .error (.valueError "invalid agent list")

/-- Models `builder.build_graph` — dispatch on the system's topology. -/
def build_graph (system : SystemConfig) (agents : List ResolvedAgent) :
    Except PyErr Graph :=
  if system.topology = "single" then
    match agents with
    | [] => .error (.indexError "list index out of range")
    | a :: _ => build_single a
  else if system.topology = "sequential" then build_sequential agents
  else if system.topology = "orchestrator" then build_orchestrator system agents
  else if system.topology = "decentralised" then build_decentralised agents
  else .error (.valueError ("Unknown topology: " ++ system.topology))

/-! ## Graph cache (`src/app/agents/cache.py`) -/

/-- The per-agent entry of `cache._hash_system`'s `data["agents"]`
(keys in `json.dumps(..., sort_keys=True)` order). -/
def agentDumpJson (a : ResolvedAgent) : Json :=
  .obj [("description", .str a.description), ("model", .str a.model),
        ("name", .str a.name), ("prompt", .str a.prompt),
        ("tools", .arr (a.tools.map .str)), ("type", .str a.type)]

/-- Models `system.model_dump()` under `sort_keys=True`. -/
def systemDumpJson (s : SystemConfig) : Json :=
  .obj [("agents", .arr (s.agents.map fun r =>
           .obj [("prompt", .str r.prompt), ("type", .str r.type)])),
        ("description", match s.description with | some d => .str d | none => .null),
        ("id", .str s.id), ("name", .str s.name), ("topology", .str s.topology)]

/-- Models `cache._hash_system` — the deterministic content hash.  The source
feeds the sort-keys JSON dump of this data into SHA-256 (truncated to 16
hex chars); the hash is modelled by its preimage, the canonical content
itself: equal content gives an equal digest, and distinct content gives a
distinct digest up to SHA-256 collisions. -/
def hash_system (system : SystemConfig) (agents : List ResolvedAgent) : Json :=
  .obj [("agents", .arr (agents.map agentDumpJson)),
        ("system", systemDumpJson system)]

/-- The module-level cache `{system_id: (config_hash, compiled_graph)}`. -/
abbrev GraphCache : Type := List (String × Json × Graph)

/-- Models `cache.get_or_build` — hash, compare against the entry for this
system id, rebuild and replace on any mismatch.  The returned flag
records whether `build_graph` ran (`True` = rebuilt). -/
def get_or_build (cache : GraphCache) (system : SystemConfig)
    (agents : List ResolvedAgent) : Except PyErr (Graph × GraphCache × Bool) :=
  let config_hash := hash_system system agents
  let hit : Option Graph :=
    match pyLookup cache system.id with
    | some (cached_hash, cached_graph) =>
      if cached_hash = config_hash then some cached_graph else none
    | none => none
  match hit with
  | some g => .ok (g, cache, false)
  | none =>
    match build_graph system agents with
    | .ok graph => .ok (graph, pyDictInsert cache system.id (config_hash, graph), true)
    | .error e => .error e

/-- Models `cache.invalidate` — drop one entry or all of them. -/
def invalidate (cache : GraphCache) (system_id : Option String) : GraphCache :=
  match system_id with
  | some sid => List.filter (fun e => e.1 ≠ sid) cache
  | none => []

/-! ## Graph execution (LangGraph's driver, specialised to the shapes
this builder produces) -/

/-- Evaluate a conditional edge's router.  `route_decision`'s in-place
write to the state dict it receives is not written back into LangGraph's
channels (each superstep materialises the state view afresh), so only the
decision component feeds the transition. -/
def routerEval (r : RouterKind) (s : AgentState) : Except PyErr String :=
  match r with
  | .validation first => .ok (route_validation s first)
  | .decision names =>
    match route_decision s names with
    | .ok (d, _) => .ok d
    | .error e => .error e
  | .delegation names => route_delegation s names

/-- Resolve a node's outgoing transition on the post-update state;
`none` is a branch missing from the destinations dict. -/
def nextTarget (es : EdgeSpec) (s : AgentState) : Except PyErr (Option String) :=
  match es with
  | .static t => .ok (some t)
  | .conditional r dests =>
    match routerEval r s with
    | .ok d => .ok (pyLookup dests d)
    | .error e => .error e

/-- Dispatch a node behaviour. -/
def runNode (nk : NodeKind) (s : AgentState) (oc : LoopOutcome) : StateUpdate :=
  match nk with
  | .agent a => agent_node a s oc
  | .validator a => validator_node a s oc
  | .decentralised a all => decentralised_node a all s oc

/-- LangGraph's default `recursion_limit`. -/
def RECURSION_LIMIT : Nat := 25

/-- Drive a compiled graph: run the current node (its loop outcome drawn
from the oracle by step index), emit the `astream` update event, merge
the update, follow the edge; stop at `END`, raise `GraphRecursionError`
when the step bound is exhausted.  Returns the events yielded before any
failure, the final state, and the failure if one occurred. -/
def drive (g : Graph) (oracle : Nat → LoopOutcome) :
    Nat → String → AgentState → Nat →
    List (String × StateUpdate) × AgentState × Option PyErr
  | 0, _, s, _ => ([], s, some .graphRecursionError)
  | fuel + 1, node, s, idx =>
    match pyLookup g.nodes node with
    | none => ([], s, some (.keyError node))
    | some nk =>
      let u := runNode nk s (oracle idx)
      let s2 := applyUpdate s u
      match pyLookup g.edges node with
      | none => ([(node, u)], s2, some (.keyError node))
      | some es =>
        match nextTarget es s2 with
        | .error e => ([(node, u)], s2, some e)
        | .ok none => ([(node, u)], s2, some (.valueError "unknown branch"))
        | .ok (some t) =>
          if t = ENDs then ([(node, u)], s2, none)
          else
            let r := drive g oracle fuel t s2 (idx + 1)
            ((node, u) :: r.1, r.2.1, r.2.2)

/-! ## Run executor (`src/app/runtime.py`) -/

/-- Models `schemas.RunResponseChunk`. -/
structure RunChunk where
  type : String
  content : String
  agent : Option String
deriving DecidableEq

def doneChunk : RunChunk := ⟨"done", "", none⟩

/-- Models `execute_run`'s `initial_state`. -/
def initial_state (prompt : String) : AgentState :=
  { messages := [⟨.str prompt⟩], current_agent := none, final_response := none,
    retry_count := 0, validation_result := none }

/-- Models `[merge_agent(ref, i) for i, ref in enumerate(system.agents)]`. -/
def merge_agents : List SystemAgentRef → Nat → Except PyErr (List ResolvedAgent)
  | [], _ => .ok []
  | r :: rest, i =>
    match merge_agent r i with
    | .ok a =>
      match merge_agents rest (i + 1) with
      | .ok tailAgents => .ok (a :: tailAgents)
      | .error e => .error e
    | .error e => .error e

/-- The capture loop over one update's new messages (`runtime.py`,
"Capture response content — skip routing/delegation JSON").  A message
whose content parses as JSON that is *not* a dict makes
`parsed.get("agent")` raise `AttributeError`, which the
`except (json.JSONDecodeError, TypeError)` clause does not catch. -/
def process_messages : List Message → Option Json → Option Json × Option PyErr
  | [], fc => (fc, none)
  | msg :: rest, fc =>
    let content := extract_content msg.content
    if content = "" then process_messages rest fc
    else
      match jsonLoads (pyStrip content) with
      | .ok (.obj kvs) =>
        let fc2 :=
          match pyLookup kvs "response" with
          | some response =>
            if pyLookup kvs "agent" = some (.str "__done__") ∧ jsonTruthy response then
              some response
            else if (pyLookup kvs "agent").isSome ∨ (pyLookup kvs "delegate").isSome then fc
            else some (.str content)
          | none =>
            if (pyLookup kvs "agent").isSome ∨ (pyLookup kvs "delegate").isSome then fc
            else some (.str content)
        process_messages rest fc2
      | .ok v =>
        (fc, some (.attributeError
          ("\x27" ++ pyTypeName v ++ "\x27 object has no attribute \x27get\x27")))
      | .error _ => process_messages rest (some (.str content))

/-- The `final_response` check (`runtime.py`, "Also check the explicit
final_response field").  `json.loads` of a non-string raises `TypeError`,
which *is* caught here; a non-dict parse again raises the uncaught
`AttributeError`. -/
def fr_check (fr : Json) (fc : Option Json) : Option Json × Option PyErr :=
  if jsonTruthy fr then
    match fr with
    | .str s =>
      match jsonLoads s with
      | .ok (.obj kvs) =>
        (match pyLookup kvs "response" with
         | some response =>
           if pyLookup kvs "agent" = some (.str "__done__") ∧ jsonTruthy response then
             (some response, none)
           else (fc, none)
         | none => (fc, none))
      | .ok v =>
        (fc, some (.attributeError
          ("\x27" ++ pyTypeName v ++ "\x27 object has no attribute \x27get\x27")))
      | .error _ => (some (.str s), none)
    | _ => (some fr, none)
  else (fc, none)

/-- The accumulators of the drive loop (`last_agent`, `final_content`). -/
structure ProcAcc where
  lastAgent : Option String
  finalContent : Option Json
deriving DecidableEq

/-- Processing of one `astream` update inside `execute_run`'s loop:
status event on agent switch, `validation_rejected` event on a rejected
update, then content capture (which can raise). -/
def process_update (nodeName : String) (u : StateUpdate) (acc : ProcAcc) :
    List RunChunk × ProcAcc × Option PyErr :=
  if nodeName = "__end__" then ([], acc, none)
  else
    let current := u.current_agent
    let statusEvs : List RunChunk :=
      if some current ≠ acc.lastAgent then
        [⟨"status", "Agent \x27" ++ current ++ "\x27 processing...", some current⟩]
      else []
    let lastAgent2 := if some current ≠ acc.lastAgent then some current else acc.lastAgent
    let rejEvs : List RunChunk :=
      match u.validation with
      | some (vr, _) =>
        if vr = "rejected" then
          [⟨"validation_rejected", "Pipeline output rejected, retrying...", some current⟩]
        else []
      | none => []
    let (fc1, err1) := process_messages u.messages acc.finalContent
    match err1 with
    | some e => (statusEvs ++ rejEvs, ⟨lastAgent2, fc1⟩, some e)
    | none =>
      let (fc2, err2) := fr_check u.final_response fc1
      (statusEvs ++ rejEvs, ⟨lastAgent2, fc2⟩, err2)

/-- Fold `process_update` over the events the drive produced, stopping at
the first failure (the generator stops pulling once the loop body
raises). -/
def process_loop : List (String × StateUpdate) → ProcAcc →
    List RunChunk × ProcAcc × Option PyErr
  | [], acc => ([], acc, none)
  | (n, u) :: rest, acc =>
    let (evs, acc1, err) := process_update n u acc
    match err with
    | some e => (evs, acc1, some e)
    | none =>
      let r := process_loop rest acc1
      (evs ++ r.1, r.2.1, r.2.2)

/-- The events of `execute_run`'s "Yield final response" block plus the
error conversion of its `except` clause: one error event for an uncaught
drive-loop failure, otherwise the token event for a truthy captured
answer.  (A captured answer that is not a string would be rejected by
pydantic inside the same `try`, again becoming an error event.) -/
def tail_events (errOpt : Option PyErr) (fc : Option Json) (la : Option String) :
    List RunChunk :=
  match errOpt with
  | some e => [⟨"error", "Execution error: " ++ pyErrMsg e, none⟩]
  | none =>
    match fc with
    | some fcv =>
      if jsonTruthy fcv then
        match fcv with
        | .str s => [⟨"token", s, la⟩]
        | _ => [⟨"error", "Execution error: validation error", none⟩]
      else []
    | none => []

/-- Models `runtime.execute_run` — resolve the agents, build (a cold cache's
`get_or_build` is exactly `build_graph`), emit the leading status event,
drive the graph while converting updates to events, then the tail events
(token, or one error for any uncaught drive-loop failure), and always a
final done event. -/
def execute_run (system : SystemConfig) (oracle : Nat → LoopOutcome)
    (prompt : String) : List RunChunk :=
  match (merge_agents system.agents 0 >>= fun agents => build_graph system agents) with
  | .error e => [⟨"error", "Graph build error: " ++ pyErrMsg e, none⟩, doneChunk]
  | .ok g =>
    let r := drive g oracle RECURSION_LIMIT g.entry (initial_state prompt) 0
    let p := process_loop r.1 ⟨none, none⟩
    let errOpt : Option PyErr :=
      match p.2.2 with
      | some e => some e
      | none => r.2.2
    ⟨"status", "Processing request...", none⟩ ::
      (p.1 ++ tail_events errOpt p.2.1.finalContent p.2.1.lastAgent ++ [doneChunk])

/-! ## Concrete instances used as witnesses and counterexamples -/

def wAgent0 : ResolvedAgent :=
  ⟨"writer_0", "writer", "Creative writer for marketing and content.",
   "claude-sonnet-4-20250514", ["parse_document"], "Write a draft."⟩

def wValidator1 : ResolvedAgent :=
  ⟨"validator_1", "validator", "Reviews pipeline output and accepts or rejects it.",
   "claude-sonnet-4-20250514", ["accept_output", "reject_output"], "Check the draft."⟩

def coder0 : ResolvedAgent :=
  ⟨"coder_0", "coder", "Senior software engineer and architect.",
   "claude-sonnet-4-20250514", ["calculate", "parse_document"], "You are a coder."⟩

def writer1 : ResolvedAgent :=
  ⟨"writer_1", "writer", "Creative writer for marketing and content.",
   "claude-sonnet-4-20250514", ["parse_document"], "You write."⟩

/-- The graph `_build_sequential` produces for `[wAgent0, wValidator1]`. -/
def wSeqGraph : Graph :=
  ⟨[("writer_0", .agent wAgent0), ("validator_1", .validator wValidator1)],
   "writer_0",
   [("writer_0", .static "validator_1"),
    ("validator_1", .conditional (.validation "writer_0") (seqDestinations "writer_0"))]⟩

/-- A state whose latest message is a terminating orchestrator payload
with an embedded response. -/
def c3State : AgentState :=
  ⟨[⟨.str "\x7b\"agent\": \"__done__\", \"response\": \"X\"\x7d"⟩], none, none, 0, none⟩

/-- A state whose latest message delegates to the agent itself
(`coder_0` producing `{"delegate": "coder_0"}`). -/
def c4State : AgentState :=
  ⟨[⟨.str "\x7b\"delegate\": \"coder_0\"\x7d"⟩], some "coder_0", none, 0, none⟩

/-- The graph `_build_decentralised` produces for `[coder0, writer1]`. -/
def c4Graph : Graph :=
  ⟨[("coder_0", .decentralised coder0 [coder0, writer1]),
    ("writer_1", .decentralised writer1 [coder0, writer1])],
   "coder_0",
   [("coder_0", .conditional (.delegation ["coder_0", "writer_1"])
      (fanDestinations ["coder_0", "writer_1"])),
    ("writer_1", .conditional (.delegation ["coder_0", "writer_1"])
      (fanDestinations ["coder_0", "writer_1"]))]⟩

/-- A single-topology system with one coder agent. -/
def c5System : SystemConfig :=
  ⟨"demo", "Demo", none, "single", [⟨"coder", "You are a coder."⟩]⟩

/-- A model capability that always answers the plain text `42` with no
tool calls. -/
def c5Oracle : Nat → LoopOutcome := fun _ => .ok [] (.str "42") (.str "42")

/-- A model capability that always answers plain prose with no tool calls. -/
def proseOracle : Nat → LoopOutcome :=
  fun _ => .ok [] (.str "Here is the answer.") (.str "Here is the answer.")

/-- A state in which the validator has just accepted. -/
def exAccepted : AgentState :=
  ⟨[⟨.str "Looks good."⟩], some "validator_1", some (.str "Looks good."), 1, some "accepted"⟩

/-- The graph `build_graph` produces for `c5System`'s one coder. -/
def c7Graph : Graph :=
  ⟨[("coder_0", .agent coder0)], "coder_0", [("coder_0", .static ENDs)]⟩

/-- The cache after one `get_or_build` for `c5System` on an empty cache. -/
def c7Cache : GraphCache :=
  [("demo", (hash_system c5System [coder0], c7Graph))]

/-! ## Dict lemmas -/

theorem pyLookup_pyDictInsert {α : Type} (d : List (String × α)) (k : String) (v : α)
    (k2 : String) :
    pyLookup (pyDictInsert d k v) k2 = if k2 = k then some v else pyLookup d k2 := by
  induction d with
  | nil =>
    simp only [pyDictInsert, pyLookup]
    by_cases h : k = k2
    · subst h; simp
    · rw [if_neg h, if_neg (fun hh => h hh.symm)]
  | cons head tail ih =>
    obtain ⟨k0, v0⟩ := head
    by_cases h0 : k0 = k
    · subst h0
      simp only [pyDictInsert, if_pos rfl, pyLookup]
      by_cases h2 : k0 = k2
      · subst h2; simp
      · rw [if_neg h2, if_neg (fun hh => h2 hh.symm), if_neg h2]
    · simp only [pyDictInsert, if_neg h0, pyLookup]
      by_cases h2 : k0 = k2
      · subst h2; simp [h0]
      · rw [if_neg h2, ih, if_neg h2]

theorem pyLookup_foldl_selfmap (names : List String) (acc : List (String × String))
    (n : String) :
    pyLookup (names.foldl (fun a x => pyDictInsert a x x) acc) n =
      if n ∈ names then some n else pyLookup acc n := by
  induction names generalizing acc with
  | nil => simp
  | cons m rest ih =>
    simp only [List.foldl_cons, ih, pyLookup_pyDictInsert]
    by_cases hr : n ∈ rest
    · simp [hr]
    · by_cases hm : n = m
      · subst hm; simp [hr]
      · simp [hr, hm, List.mem_cons]

theorem fanDestinations_lookup (names : List String) (d : String) :
    pyLookup (fanDestinations names) d =
      if d = "__done__" then some ENDs
      else if d ∈ names then some d else none := by
  simp only [fanDestinations, pyLookup_pyDictInsert, pyLookup_foldl_selfmap, pyLookup]

theorem seqDestinations_lookup (first : String) (d : String) :
    pyLookup (seqDestinations first) d =
      if d = "__error__" then some ENDs
      else if d = "__accepted__" then some ENDs
      else if d = first then some first else none := by
  simp only [seqDestinations, pyLookup_pyDictInsert, pyLookup]
  by_cases h1 : d = "__error__"
  · simp [h1]
  · by_cases h2 : d = "__accepted__"
    · simp [h1, h2]
    · by_cases h3 : d = first
      · subst h3; simp [h1, h2]
      · simp [h1, h2, h3]
        exact fun hh => h3 hh.symm

/-- C1: in every sequential build with at least two agents, the
validator's conditional edge routes three ways on the current state:
`validation_result = accepted` goes to `__accepted__` and thence to
termination; `rejected` with `retry_count` under `MAX_RETRIES = 3`
goes back to the first agent of the sequence; `rejected` with
`retry_count` at or above the maximum goes to `__error__` and thence to
termination, whatever the retry count beyond the bound.  The decision
reads only `validation_result` and `retry_count` (so the routing itself
leaves `retry_count` untouched).  (The two hypotheses on `a0.name`
exclude an agent literally named `__accepted__`/`__error__`, whose
key would be overwritten in the Python destinations dict literal;
resolver-generated names are always `"{type}_{index}"`.) -/
theorem seq_validation_routing (agents : List ResolvedAgent) (a0 : ResolvedAgent)
    (rest : List ResolvedAgent) (hag : agents = a0 :: rest)
    (hlen : 2 ≤ agents.length) (g : Graph)
    (hb : build_sequential agents = .ok g)
    (hn1 : a0.name ≠ "__accepted__") (hn2 : a0.name ≠ "__error__")
    (state : AgentState) :
    (∀ v, agents.getLast? = some v →
       (v.name, EdgeSpec.conditional (.validation a0.name) (seqDestinations a0.name)) ∈ g.edges) ∧
    (state.validation_result = some "accepted" →
       route_validation state a0.name = "__accepted__" ∧
       pyLookup (seqDestinations a0.name) "__accepted__" = some ENDs) ∧
    (state.validation_result = some "rejected" → state.retry_count < MAX_RETRIES →
       route_validation state a0.name = a0.name ∧
       pyLookup (seqDestinations a0.name) a0.name = some a0.name) ∧
    (state.validation_result = some "rejected" → MAX_RETRIES ≤ state.retry_count →
       route_validation state a0.name = "__error__" ∧
       pyLookup (seqDestinations a0.name) "__error__" = some ENDs) ∧
    (∀ s2 : AgentState, s2.validation_result = state.validation_result →
       s2.retry_count = state.retry_count →
       route_validation s2 a0.name = route_validation state a0.name) := by
  subst hag
  refine ⟨?_, ?_, ?_, ?_, ?_⟩
  · intro v hv
    simp only [build_sequential] at hb
    rw [if_neg (by omega)] at hb
    split at hb
    · simp only [Except.ok.injEq] at hb
      subst hb
      have hvl : v = (a0 :: rest).getLast (List.cons_ne_nil a0 rest) := by
        rw [List.getLast?_eq_getLast (a0 :: rest) (List.cons_ne_nil a0 rest)] at hv
        exact (Option.some.injEq _ _ ▸ hv).symm
      subst hvl
      simp
    · exact absurd hb (by simp)
  · intro hacc
    constructor
    · simp [route_validation, hacc]
    · rw [seqDestinations_lookup]
      simp [ENDs]
  · intro hrej hlt
    constructor
    · simp only [route_validation, hrej]
      rw [if_neg (by simp), if_neg (by omega)]
    · rw [seqDestinations_lookup]
      rw [if_neg hn2, if_neg hn1, if_pos rfl]
  · intro hrej hge
    constructor
    · simp only [route_validation, hrej]
      rw [if_neg (by simp), if_pos hge]
    · rw [seqDestinations_lookup]
      simp
  · intro s2 hv hr
    simp only [route_validation, hv, hr]

/-- Witness for `seq_validation_routing`: the two-agent pipeline
`[wAgent0, wValidator1]` compiles to `wSeqGraph`, and on a state the
validator accepted, the conditional edge resolves to termination. -/
theorem seq_validation_routing_witness :
    build_sequential [wAgent0, wValidator1] = .ok wSeqGraph ∧
    (route_validation exAccepted "writer_0" = "__accepted__" ∧
     pyLookup (seqDestinations "writer_0") "__accepted__" = some ENDs) :=
  ⟨by decide,
   (seq_validation_routing [wAgent0, wValidator1] wAgent0 [wValidator1] rfl
     (by decide) wSeqGraph (by decide) (by decide) (by decide) exAccepted).2.1 rfl⟩

theorem applyUpdate_retry_mono (s : AgentState) (nk : NodeKind) (oc : LoopOutcome) :
    s.retry_count ≤ (applyUpdate s (runNode nk s oc)).retry_count := by
  cases nk with
  | agent a => cases oc <;> simp [runNode, agent_node, applyUpdate]
  | validator a =>
    cases oc with
    | ok tr resp retry =>
      simp only [runNode, validator_node, applyUpdate]
      split_ifs <;> simp
    | err msg =>
      simp only [runNode, validator_node, applyUpdate]
      simp
  | decentralised a all => cases oc <;> simp [runNode, decentralised_node, applyUpdate]

theorem drive_retry_mono (g : Graph) (oracle : Nat → LoopOutcome) :
    ∀ (fuel : Nat) (node : String) (s : AgentState) (idx : Nat),
      s.retry_count ≤ (drive g oracle fuel node s idx).2.1.retry_count := by
  intro fuel
  induction fuel with
  | zero => intro node s idx; simp [drive]
  | succ n ih =>
    intro node s idx
    simp only [drive]
    cases hnk : pyLookup g.nodes node with
    | none => simp
    | some nk =>
      simp only
      cases hes : pyLookup g.edges node with
      | none => simpa using applyUpdate_retry_mono s nk (oracle idx)
      | some es =>
        simp only
        cases hnt : nextTarget es (applyUpdate s (runNode nk s (oracle idx))) with
        | error e => simpa using applyUpdate_retry_mono s nk (oracle idx)
        | ok t =>
          cases t with
          | none => simpa using applyUpdate_retry_mono s nk (oracle idx)
          | some tgt =>
            simp only
            by_cases hend : tgt = ENDs
            · simpa [hend] using applyUpdate_retry_mono s nk (oracle idx)
            · rw [if_neg hend]
              exact le_trans (applyUpdate_retry_mono s nk (oracle idx))
                (ih tgt (applyUpdate s (runNode nk s (oracle idx))) (idx + 1))

/-- C2: retry bookkeeping.  Plain and decentralised nodes never touch
`retry_count`; the validator leaves it unchanged on an accepted (or
sentinel-free) loop, increments it by exactly one on a rejection, and on
an internal failure sets `validation_result` to rejected while also
incrementing by exactly one; consequently the state merge never
decreases `retry_count` at any node, and a whole drive of any compiled
graph is monotone non-decreasing in `retry_count`. -/
theorem retry_count_accounting (agent : ResolvedAgent) (all : List ResolvedAgent)
    (state : AgentState) (oc : LoopOutcome) :
    ((applyUpdate state (agent_node agent state oc)).retry_count = state.retry_count) ∧
    ((applyUpdate state (decentralised_node agent all state oc)).retry_count = state.retry_count) ∧
    (∀ toolResults response textRetry, oc = .ok toolResults response textRetry →
      (scanToolResults toolResults = some "rejected" →
        (validator_node agent state oc).validation = some ("rejected", state.retry_count + 1)) ∧
      (scanToolResults toolResults ≠ some "rejected" →
        (validator_node agent state oc).validation =
          some ((scanToolResults toolResults).getD "accepted", state.retry_count))) ∧
    (∀ msg, oc = .err msg →
      (validator_node agent state oc).validation = some ("rejected", state.retry_count + 1)) ∧
    (state.retry_count ≤ (applyUpdate state (validator_node agent state oc)).retry_count) ∧
    (∀ (g : Graph) (oracle : Nat → LoopOutcome) (fuel : Nat) (node : String) (idx : Nat),
      state.retry_count ≤ (drive g oracle fuel node state idx).2.1.retry_count) := by
  refine ⟨?_, ?_, ?_, ?_, ?_, ?_⟩
  · cases oc <;> simp [agent_node, applyUpdate]
  · cases oc <;> simp [decentralised_node, applyUpdate]
  · intro toolResults response textRetry hoc
    subst hoc
    constructor
    · intro hscan
      simp [validator_node, hscan]
    · intro hne
      cases hscan : scanToolResults toolResults with
      | none =>
        simp [validator_node, hscan]
        decide
      | some v =>
        have hv : v ≠ "rejected" := by
          intro h; subst h; rw [hscan] at hne; exact hne rfl
        simp [validator_node, hscan, hv]
  · intro msg hoc
    subst hoc
    simp [validator_node]
  · simpa [runNode] using applyUpdate_retry_mono state (.validator agent) oc
  · exact fun g oracle fuel node idx => drive_retry_mono g oracle fuel node state idx

/-- Witness for `retry_count_accounting`: a rejection sentinel in the
validator's tool results turns a retry count of 1 into exactly 2 with
`validation_result = rejected`. -/
theorem retry_count_accounting_witness :
    (validator_node wValidator1 exAccepted
        (.ok ["__REJECTED__: too short"] (.str "no") (.str "no"))).validation =
      some ("rejected", 2) := by
  have h := ((retry_count_accounting wValidator1 [] exAccepted
      (.ok ["__REJECTED__: too short"] (.str "no") (.str "no"))).2.2.1
      ["__REJECTED__: too short"] (.str "no") (.str "no") rfl).1 (by decide)
  simpa using h

/-- Every successful `route_decision` either returns the state untouched
or returns the terminating decision together with the state whose
`final_response` was overwritten by the adopted embedded response. -/
theorem route_decision_cases (state : AgentState) (names : List String) (d : String)
    (s2 : AgentState) (h : route_decision state names = .ok (d, s2)) :
    s2 = state ∨
      (d = "__done__" ∧ ∃ response, s2 = { state with final_response := some response }) := by
  unfold route_decision at h
  cases hl : state.messages.getLast? with
  | none => rw [hl] at h; simp at h
  | some last =>
    rw [hl] at h
    simp only at h
    split at h
    · split at h
      · split at h
        · simp only [Except.ok.injEq, Prod.mk.injEq] at h
          exact Or.inr ⟨h.1.symm, _, h.2.symm⟩
        · simp only [Except.ok.injEq, Prod.mk.injEq] at h
          exact Or.inl h.2.symm
      · split at h
        · split at h
          · simp only [Except.ok.injEq, Prod.mk.injEq] at h
            exact Or.inl h.2.symm
          · split at h <;>
              (simp only [Except.ok.injEq, Prod.mk.injEq] at h; exact Or.inl h.2.symm)
        · split at h <;>
            (simp only [Except.ok.injEq, Prod.mk.injEq] at h; exact Or.inl h.2.symm)
    · split at h <;>
        (simp only [Except.ok.injEq, Prod.mk.injEq] at h; exact Or.inl h.2.symm)

/-- C3(amended): routing frame.  Orchestrator routing preserves the
message history, the current agent, the retry count and the validation
result, and can change `final_response` only when its decision is the
terminating `__done__` (adopting the payload's embedded response);
delegation routing is a function of the message history alone and
returns a bare decision; validation routing depends only on
`validation_result` and `retry_count`. -/
theorem router_frame_amended (state : AgentState) (names : List String) :
    (∀ d s2, route_decision state names = .ok (d, s2) →
       s2.messages = state.messages ∧ s2.current_agent = state.current_agent ∧
       s2.retry_count = state.retry_count ∧
       s2.validation_result = state.validation_result ∧
       (s2.final_response ≠ state.final_response → d = "__done__")) ∧
    (∀ s2 : AgentState, s2.messages = state.messages →
       route_delegation s2 names = route_delegation state names) ∧
    (∀ s2 : AgentState, s2.validation_result = state.validation_result →
       s2.retry_count = state.retry_count →
       ∀ f, route_validation s2 f = route_validation state f) := by
  refine ⟨?_, ?_, ?_⟩
  · intro d s2 h
    rcases route_decision_cases state names d s2 h with heq | ⟨hd, response, heq⟩
    · subst heq
      exact ⟨rfl, rfl, rfl, rfl, fun hne => absurd rfl hne⟩
    · subst heq
      exact ⟨rfl, rfl, rfl, rfl, fun _ => hd⟩
  · intro s2 hmsg
    simp only [route_delegation, hmsg]
  · intro s2 hv hr f
    simp only [route_validation, hv, hr]

/-- Witness for `router_frame_amended`: on the terminating-payload state
the routed-to state keeps the retry count (even though `final_response`
changed). -/
theorem router_frame_amended_witness :
    ({ c3State with final_response := some (Json.str "X") } : AgentState).retry_count =
      c3State.retry_count :=
  ((router_frame_amended c3State ["writer_1"]).1 "__done__"
    { c3State with final_response := some (Json.str "X") } (by decide)).2.2.1

/-- C3(counterexample): `route_decision` is not pure — on a state whose
latest message is `{"agent": "__done__", "response": "X"}` it returns a
state whose `final_response` was overwritten with `"X"`, differing from
the input state. -/
theorem route_decision_mutates_state :
    route_decision c3State ["writer_1"] =
      .ok ("__done__", { c3State with final_response := some (Json.str "X") }) ∧
    ({ c3State with final_response := some (Json.str "X") } : AgentState) ≠ c3State := by
  exact ⟨by decide, by decide⟩

/-- C4(amended): in every decentralised build, each agent's conditional
edge is driven by `route_delegation` over the *full* agent-name list —
the routing agent's own name included — and its destinations dict maps
every agent name, the agent's own included, to that same agent's node;
self-delegation is therefore allowed, not excluded. -/
theorem build_decentralised_cons (a0 : ResolvedAgent) (rest : List ResolvedAgent)
    (h : agentsAddable (a0 :: rest) = true) :
    build_decentralised (a0 :: rest) =
      .ok { nodes := (a0 :: rest).map fun a => (a.name, NodeKind.decentralised a (a0 :: rest)),
            entry := a0.name,
            edges := (a0 :: rest).map fun a =>
              (a.name, EdgeSpec.conditional (.delegation ((a0 :: rest).map (fun x => x.name)))
                (fanDestinations ((a0 :: rest).map (fun x => x.name)))) } := by
  simp [build_decentralised, h]

theorem decentralised_self_allowed (agents : List ResolvedAgent) (g : Graph)
    (hb : build_decentralised agents = .ok g) (a : ResolvedAgent) (ha : a ∈ agents) :
    (a.name, EdgeSpec.conditional (.delegation (agents.map (fun x => x.name)))
       (fanDestinations (agents.map (fun x => x.name)))) ∈ g.edges ∧
    (a.name ≠ "__done__" →
       pyLookup (fanDestinations (agents.map (fun x => x.name))) a.name = some a.name) := by
  constructor
  · cases agents with
    | nil => simp [build_decentralised] at hb
    | cons a0 rest =>
      by_cases hadd : agentsAddable (a0 :: rest)
      · rw [build_decentralised_cons a0 rest hadd] at hb
        simp only [Except.ok.injEq] at hb
        subst hb
        exact List.mem_map_of_mem _ ha
      · simp [build_decentralised, hadd] at hb
  · intro hd
    rw [fanDestinations_lookup, if_neg hd,
      if_pos (List.mem_map_of_mem (fun x => x.name) ha)]

/-- Witness for `decentralised_self_allowed`: in the two-agent
decentralised build, `coder_0`'s own name maps to itself in the
destinations dict. -/
theorem decentralised_self_allowed_witness :
    pyLookup (fanDestinations ([coder0, writer1].map (fun x => x.name))) coder0.name =
      some coder0.name :=
  (decentralised_self_allowed [coder0, writer1] c4Graph (by decide) coder0
    (by decide)).2 (by decide)

/-- C4(counterexample): a model output `{"delegate": "coder_0"}` produced
by `coder_0` itself routes back to `coder_0`: `route_delegation` accepts
the agent's own name and the compiled destinations map sends it to the
same node rather than to termination. -/
theorem delegation_self_target :
    route_delegation c4State ["coder_0", "writer_1"] = .ok "coder_0" ∧
    build_decentralised [coder0, writer1] = .ok c4Graph ∧
    pyLookup c4Graph.edges "coder_0" =
      some (.conditional (.delegation ["coder_0", "writer_1"])
        (fanDestinations ["coder_0", "writer_1"])) ∧
    pyLookup (fanDestinations ["coder_0", "writer_1"]) "coder_0" = some "coder_0" ∧
    "coder_0" ≠ ENDs :=
  ⟨by decide, by decide, by decide, by decide, by decide⟩

/-- C5: the single-topology one-coder pipeline whose model always
answers the plain text `42` does *not* emit `token("42")` then `done`:
`json.loads("42")` parses to the integer 42, `parsed.get("agent")`
raises `AttributeError` (not caught by the
`except (json.JSONDecodeError, TypeError)` clause, unlike
`route_decision`'s handler), and the run executor converts it at its
boundary into an error event — the stream is
status, status, error, done with no token event at all. -/
theorem execute_run_42_trace :
    execute_run c5System c5Oracle "What is 6 times 7?" =
      [⟨"status", "Processing request...", none⟩,
       ⟨"status", "Agent \x27coder_0\x27 processing...", some "coder_0"⟩,
       ⟨"error", "Execution error: \x27int\x27 object has no attribute \x27get\x27", none⟩,
       doneChunk] ∧
    ∀ c ∈ execute_run c5System c5Oracle "What is 6 times 7?", c.type ≠ "token" :=
  ⟨by decide, by decide⟩

/-- C8: for agent lists of fewer than two agents, compiling under the
sequential topology is the very same computation as compiling under the
single topology (including the `IndexError` both raise on an empty
list), and for a one-agent list with resolvable tools it is the
one-node graph with a single unconditional edge to termination. -/
theorem sequential_degrades_to_single (sys1 sys2 : SystemConfig)
    (agents : List ResolvedAgent) (h1 : sys1.topology = "sequential")
    (h2 : sys2.topology = "single") (hlen : agents.length < 2) :
    build_graph sys1 agents = build_graph sys2 agents ∧
    (∀ a, agents = [a] → agentToolsOk a = true →
      build_graph sys1 agents =
        .ok { nodes := [(a.name, .agent a)], entry := a.name,
              edges := [(a.name, .static ENDs)] }) := by
  have e1 : build_graph sys1 agents = build_sequential agents := by
    rw [build_graph.eq_def, h1]
    rw [if_neg (by decide), if_pos rfl]
  have e2 : build_graph sys2 agents = (match agents with
      | [] => .error (.indexError "list index out of range")
      | a :: _ => build_single a) := by
    rw [build_graph.eq_def, h2]
    rw [if_pos rfl]
    cases agents <;> rfl
  constructor
  · rw [e1, e2]
    cases agents with
    | nil => simp [build_sequential]
    | cons a rest =>
      cases rest with
      | nil => simp [build_sequential]
      | cons b rest2 => exfalso; simp at hlen; omega
  · intro a ha htools
    subst ha
    rw [e1]
    simp [build_sequential, build_single, htools]

/-- Witness for `sequential_degrades_to_single`: the one-coder list
compiles identically under both topologies, to the one-node graph. -/
theorem sequential_degrades_to_single_witness :
    build_graph ⟨"wseq", "W", none, "sequential", []⟩ [coder0] =
      build_graph ⟨"wsing", "W", none, "single", []⟩ [coder0] ∧
    build_graph ⟨"wseq", "W", none, "sequential", []⟩ [coder0] =
      .ok { nodes := [("coder_0", .agent coder0)], entry := "coder_0",
            edges := [("coder_0", .static ENDs)] } :=
  ⟨(sequential_degrades_to_single ⟨"wseq", "W", none, "sequential", []⟩
      ⟨"wsing", "W", none, "single", []⟩ [coder0] rfl rfl (by decide)).1,
   by
     have h := (sequential_degrades_to_single ⟨"wseq", "W", none, "sequential", []⟩
       ⟨"wsing", "W", none, "single", []⟩ [coder0] rfl rfl (by decide)).2 coder0 rfl (by decide)
     simpa using h⟩

theorem scanToolResults_none (l : List String)
    (h : ∀ tr ∈ l, strContains tr "__ACCEPTED__" = false ∧
      strContains tr "__REJECTED__:" = false) :
    scanToolResults l = none := by
  induction l with
  | nil => rfl
  | cons tr rest ih =>
    have h1 := (h tr (List.mem_cons_self tr rest)).1
    have h2 := (h tr (List.mem_cons_self tr rest)).2
    simp only [scanToolResults]
    rw [if_neg (by simp [h1]), if_neg (by simp [h2])]
    exact ih (fun x hx => h x (List.mem_cons_of_mem _ hx))

/-- C9: the validator's implicit accept is triggered by the absence of
sentinels, not the absence of tool calls — a loop that did invoke tools
but whose tool results contain neither `__ACCEPTED__` nor `__REJECTED__:`
still yields `validation_result = accepted` with `retry_count`
unchanged. -/
theorem validator_implicit_accept (agent : ResolvedAgent) (state : AgentState)
    (toolResults : List String) (response textRetry : Json)
    (_hne : toolResults ≠ [])
    (hsent : ∀ tr ∈ toolResults, strContains tr "__ACCEPTED__" = false ∧
      strContains tr "__REJECTED__:" = false) :
    (validator_node agent state (.ok toolResults response textRetry)).validation =
      some ("accepted", state.retry_count) := by
  have hs := scanToolResults_none toolResults hsent
  simp [validator_node, hs]
  decide

/-- Witness for `validator_implicit_accept`: a tool ran and returned
plain review notes with no sentinel; the validator still accepts and the
retry count stays at 1. -/
theorem validator_implicit_accept_witness :
    (validator_node wValidator1 exAccepted
      (.ok ["Review notes: the draft is fine."] (.str "ok") (.str "ok"))).validation =
      some ("accepted", 1) := by
  have h := validator_implicit_accept wValidator1 exAccepted
    ["Review notes: the draft is fine."] (.str "ok") (.str "ok") (by decide) (by decide)
  simpa using h

theorem routeFallbackScan_mem (content : String) (names : List String) (n : String)
    (h : routeFallbackScan content names = some n) : n ∈ names :=
  List.mem_of_find?_eq_some (show List.find? _ names = some n from h)

theorem route_decision_total_closed (state : AgentState) (names : List String)
    (m : Message) (hm : state.messages.getLast? = some m) :
    ∃ d s2, route_decision state names = .ok (d, s2) ∧ (d = "__done__" ∨ d ∈ names) := by
  unfold route_decision
  rw [hm]
  simp only
  split
  · split
    · split
      · exact ⟨"__done__", _, rfl, Or.inl rfl⟩
      · exact ⟨"__done__", _, rfl, Or.inl rfl⟩
    · split
      · split
        · next h => exact ⟨_, state, rfl, Or.inr h⟩
        · split
          · next n hfs => exact ⟨n, state, rfl, Or.inr (routeFallbackScan_mem _ _ _ hfs)⟩
          · exact ⟨"__done__", state, rfl, Or.inl rfl⟩
      · split
        · next n hfs => exact ⟨n, state, rfl, Or.inr (routeFallbackScan_mem _ _ _ hfs)⟩
        · exact ⟨"__done__", state, rfl, Or.inl rfl⟩
  · split
    · next n hfs => exact ⟨n, state, rfl, Or.inr (routeFallbackScan_mem _ _ _ hfs)⟩
    · exact ⟨"__done__", state, rfl, Or.inl rfl⟩

theorem route_delegation_total_closed (state : AgentState) (names : List String)
    (m : Message) (hm : state.messages.getLast? = some m) :
    ∃ d, route_delegation state names = .ok d ∧ (d = "__done__" ∨ d ∈ names) := by
  unfold route_delegation
  rw [hm]
  simp only
  split
  · split
    · split
      · next h => exact ⟨_, rfl, Or.inr h⟩
      · exact ⟨"__done__", rfl, Or.inl rfl⟩
    · exact ⟨"__done__", rfl, Or.inl rfl⟩
  · exact ⟨"__done__", rfl, Or.inl rfl⟩

theorem build_orchestrator_cons (sys : SystemConfig) (a0 : ResolvedAgent)
    (rest : List ResolvedAgent) (h : agentsAddable (a0 :: rest) = true) :
    build_orchestrator sys (a0 :: rest) =
      .ok { nodes := (a0 :: rest).map fun a => (a.name, NodeKind.agent a),
            entry := a0.name,
            edges := (a0.name, EdgeSpec.conditional (.decision (rest.map (fun x => x.name)))
                (fanDestinations (rest.map (fun x => x.name)))) ::
              rest.map (fun a => (a.name, EdgeSpec.static a0.name)) } := by
  simp [build_orchestrator, h]

/-- C10: on any state with a latest message, `route_decision` and
`route_delegation` return normally (no exception) and their decision is
always either `__done__` or a member of the supplied agent-name list;
every such decision is a key of the builders' destinations dict, and the
orchestrator build installs exactly that conditional edge. -/
theorem routing_total_closed (state : AgentState) (names : List String)
    (m : Message) (hm : state.messages.getLast? = some m) :
    (∃ d s2, route_decision state names = .ok (d, s2) ∧ (d = "__done__" ∨ d ∈ names)) ∧
    (∃ d, route_delegation state names = .ok d ∧ (d = "__done__" ∨ d ∈ names)) ∧
    (∀ d, d = "__done__" ∨ d ∈ names →
       (pyLookup (fanDestinations names) d).isSome = true) ∧
    (∀ (sys : SystemConfig) (a0 : ResolvedAgent) (rest : List ResolvedAgent) (g : Graph),
       build_orchestrator sys (a0 :: rest) = .ok g →
       (a0.name, EdgeSpec.conditional (.decision (rest.map (fun x => x.name)))
         (fanDestinations (rest.map (fun x => x.name)))) ∈ g.edges) := by
  refine ⟨route_decision_total_closed state names m hm,
    route_delegation_total_closed state names m hm, ?_, ?_⟩
  · intro d hd
    rw [fanDestinations_lookup]
    by_cases h1 : d = "__done__"
    · simp [h1]
    · rcases hd with hd | hd
      · exact absurd hd h1
      · simp [h1, hd]
  · intro sys a0 rest g hb
    by_cases hadd : agentsAddable (a0 :: rest)
    · rw [build_orchestrator_cons sys a0 rest hadd] at hb
      simp only [Except.ok.injEq] at hb
      subst hb
      exact List.mem_cons_self _ _
    · simp [build_orchestrator, hadd] at hb

/-- Witness for `routing_total_closed`: the delegation state with the
`{"delegate": "coder_0"}` message routes somewhere in the closed set. -/
theorem routing_total_closed_witness :
    ∃ d, route_delegation c4State ["coder_0", "writer_1"] = .ok d ∧
      (d = "__done__" ∨ d ∈ ["coder_0", "writer_1"]) :=
  (routing_total_closed c4State ["coder_0", "writer_1"]
    ⟨.str "\x7b\"delegate\": \"coder_0\"\x7d"⟩ rfl).2.1

/-- After any successful `get_or_build`, the returned cache maps the
system id to exactly the content hash of the inputs and the returned
graph. -/
theorem get_or_build_entry (cache : GraphCache) (system : SystemConfig)
    (agents : List ResolvedAgent) (g : Graph) (c2 : GraphCache) (b : Bool)
    (h : get_or_build cache system agents = .ok (g, c2, b)) :
    pyLookup c2 system.id = some (hash_system system agents, g) := by
  unfold get_or_build at h
  simp only at h
  split at h
  · next g0 heq =>
    simp only [Except.ok.injEq, Prod.mk.injEq] at h
    obtain ⟨hg, hc, _⟩ := h
    subst hg; subst hc
    cases hlk : pyLookup cache system.id with
    | none => rw [hlk] at heq; simp at heq
    | some entry =>
      obtain ⟨ch, cg⟩ := entry
      rw [hlk] at heq
      simp only at heq
      split at heq
      · next hch =>
        simp only [Option.some.injEq] at heq
        rw [hch, heq]
      · simp at heq
  · split at h
    · next graph hbg =>
      simp only [Except.ok.injEq, Prod.mk.injEq] at h
      obtain ⟨hg, hc, _⟩ := h
      subst hg; subst hc
      rw [pyLookup_pyDictInsert]
      simp
    · simp at h

theorem hash_system_set_prompt_ne (system : SystemConfig)
    (agents : List ResolvedAgent) (i : Nat) (hi : i < agents.length) (p2 : String)
    (hne : p2 ≠ (agents.get ⟨i, hi⟩).prompt) :
    hash_system system (agents.set i { agents.get ⟨i, hi⟩ with prompt := p2 }) ≠
      hash_system system agents := by
  intro h
  unfold hash_system at h
  simp only [Json.obj.injEq, List.cons.injEq, Prod.mk.injEq, Json.arr.injEq, and_true,
    true_and] at h
  have hq := congrArg (fun l => l[i]?) h
  dsimp only at hq
  rw [List.getElem?_map, List.getElem?_map,
    List.getElem?_set_eq_of_lt _ (by simpa using hi),
    List.getElem?_eq_getElem hi] at hq
  simp only [Option.map_some', Option.some.injEq] at hq
  unfold agentDumpJson at hq
  simp only [Json.obj.injEq, List.cons.injEq, Prod.mk.injEq, Json.str.injEq, and_true,
    true_and] at hq
  exact hne (by simpa using hq.2.2.2.1)

/-- C7: the cache is hash-gated.  Re-fetching with field-equal inputs is
a hit: the cached compiled graph is returned, the cache is unchanged and
`build_graph` does not run.  Changing any single resolved agent's prompt
changes the content hash, misses, reruns `build_graph` and replaces the
entry for the pipeline id. -/
theorem graph_cache_hash_gated (cache : GraphCache) (system : SystemConfig)
    (agents : List ResolvedAgent) (g : Graph) (c2 : GraphCache) (b : Bool)
    (hfirst : get_or_build cache system agents = .ok (g, c2, b)) :
    (get_or_build c2 system agents = .ok (g, c2, false)) ∧
    (∀ (i : Nat) (hi : i < agents.length) (p2 : String),
       p2 ≠ (agents.get ⟨i, hi⟩).prompt →
       ∀ g2, build_graph system
           (agents.set i { agents.get ⟨i, hi⟩ with prompt := p2 }) = .ok g2 →
         hash_system system (agents.set i { agents.get ⟨i, hi⟩ with prompt := p2 }) ≠
           hash_system system agents ∧
         get_or_build c2 system (agents.set i { agents.get ⟨i, hi⟩ with prompt := p2 }) =
           .ok (g2, pyDictInsert c2 system.id
             (hash_system system (agents.set i { agents.get ⟨i, hi⟩ with prompt := p2 }),
              g2), true)) := by
  have hl := get_or_build_entry cache system agents g c2 b hfirst
  constructor
  · unfold get_or_build
    rw [hl]
    simp
  · intro i hi p2 hp g2 hbuild
    have hne := hash_system_set_prompt_ne system agents i hi p2 hp
    refine ⟨hne, ?_⟩
    unfold get_or_build
    rw [hl]
    simp only
    rw [if_neg (fun hh => hne hh.symm)]
    rw [hbuild]

/-- Witness for `graph_cache_hash_gated`: building `c5System` once fills
the cache; an identical second fetch hits without rebuilding, and a
prompt change flips the hash. -/
theorem graph_cache_hash_gated_witness :
    get_or_build c7Cache c5System [coder0] = .ok (c7Graph, c7Cache, false) ∧
    hash_system c5System [{ coder0 with prompt := "p2" }] ≠ hash_system c5System [coder0] := by
  have h := graph_cache_hash_gated [] c5System [coder0] c7Graph c7Cache true (by decide)
  exact ⟨h.1, (h.2 0 (by decide) "p2" (by decide)
    ⟨[("coder_0", .agent { coder0 with prompt := "p2" })], "coder_0",
     [("coder_0", .static ENDs)]⟩ (by decide)).1⟩

theorem process_update_fst (n : String) (u : StateUpdate) (acc : ProcAcc)
    (hn : n ≠ "__end__") :
    (process_update n u acc).1 =
      (if some u.current_agent ≠ acc.lastAgent then
        [⟨"status", "Agent \x27" ++ u.current_agent ++ "\x27 processing...",
          some u.current_agent⟩]
       else []) ++
      (match u.validation with
       | some (vr, _) =>
         if vr = "rejected" then
           [⟨"validation_rejected", "Pipeline output rejected, retrying...",
             some u.current_agent⟩]
         else []
       | none => []) := by
  unfold process_update
  rw [if_neg hn]
  dsimp only
  rcases hpm : process_messages u.messages acc.finalContent with ⟨fc1, err1⟩
  cases err1 with
  | some e => rfl
  | none => dsimp only

theorem process_update_types (n : String) (u : StateUpdate) (acc : ProcAcc) :
    ∀ c ∈ (process_update n u acc).1, c.type = "status" ∨ c.type = "validation_rejected" := by
  intro c hc
  by_cases hn : n = "__end__"
  · unfold process_update at hc
    rw [if_pos hn] at hc
    simp at hc
  · rw [process_update_fst n u acc hn] at hc
    rcases List.mem_append.mp hc with h | h
    · split at h
      · simp only [List.mem_singleton] at h
        subst h; exact Or.inl rfl
      · simp at h
    · split at h
      · split at h
        · simp only [List.mem_singleton] at h
          subst h; exact Or.inr rfl
        · simp at h
      · simp at h

theorem process_loop_types : ∀ (events : List (String × StateUpdate)) (acc : ProcAcc),
    ∀ c ∈ (process_loop events acc).1, c.type = "status" ∨ c.type = "validation_rejected" := by
  intro events
  induction events with
  | nil => intro acc c hc; simp [process_loop] at hc
  | cons e rest ih =>
    intro acc c hc
    obtain ⟨n, u⟩ := e
    unfold process_loop at hc
    rcases hpu : process_update n u acc with ⟨evs, acc1, err⟩
    rw [hpu] at hc
    have hfst : (process_update n u acc).1 = evs := by rw [hpu]
    cases err with
    | some e0 =>
      dsimp only at hc
      exact process_update_types n u acc c (hfst ▸ hc)
    | none =>
      dsimp only at hc
      rcases List.mem_append.mp hc with h | h
      · exact process_update_types n u acc c (hfst ▸ h)
      · exact ih acc1 c h

theorem tail_events_shape (errOpt : Option PyErr) (fc : Option Json) (la : Option String) :
    tail_events errOpt fc la = [] ∨
      ∃ c0, tail_events errOpt fc la = [c0] ∧ (c0.type = "error" ∨ c0.type = "token") := by
  unfold tail_events
  split
  · exact Or.inr ⟨_, rfl, Or.inl rfl⟩
  · split
    · split
      · split
        · exact Or.inr ⟨_, rfl, Or.inr rfl⟩
        · exact Or.inr ⟨_, rfl, Or.inl rfl⟩
      · exact Or.inl rfl
    · exact Or.inl rfl

theorem stream_shape_assemble (pre tl : List RunChunk)
    (hpre : ∀ c ∈ pre, c.type = "status" ∨ c.type = "validation_rejected")
    (htl : tl = [] ∨ ∃ c0, tl = [c0] ∧ (c0.type = "error" ∨ c0.type = "token")) :
    ((pre ++ tl ++ [doneChunk]).filter (fun c => c.type = "done") = [doneChunk]) ∧
    (pre ++ tl ++ [doneChunk]).getLast? = some doneChunk ∧
    ((pre ++ tl ++ [doneChunk]).filter (fun c => c.type = "error")).length ≤ 1 ∧
    (∀ c ∈ pre ++ tl ++ [doneChunk], c.type = "error" →
       ∃ pre2, pre ++ tl ++ [doneChunk] = pre2 ++ [c, doneChunk] ∧
         ∀ c2 ∈ pre2, c2.type = "status" ∨ c2.type = "validation_rejected") := by
  have hpre_not : ∀ (s : String), s ≠ "status" → s ≠ "validation_rejected" →
      ∀ c ∈ pre, ¬(c.type = s) := by
    intro s hs1 hs2 c hcm hcs
    rcases hpre c hcm with h | h <;> rw [h] at hcs
    · exact hs1 hcs.symm
    · exact hs2 hcs.symm
  refine ⟨?_, ?_, ?_, ?_⟩
  · rw [List.filter_append, List.filter_append]
    rw [List.filter_eq_nil_iff.mpr (by
      intro c hcm
      simpa using hpre_not "done" (by decide) (by decide) c hcm)]
    rw [List.filter_eq_nil_iff.mpr (by
      intro c hcm
      rcases htl with h0 | ⟨c0, h0, ht⟩
      · rw [h0] at hcm; simp at hcm
      · rw [h0] at hcm
        simp only [List.mem_singleton] at hcm
        subst hcm
        rcases ht with h | h <;> simp [h])]
    simp [doneChunk]
  · exact List.getLast?_concat _
  · rw [List.filter_append, List.filter_append]
    rw [List.filter_eq_nil_iff.mpr (by
      intro c hcm
      simpa using hpre_not "error" (by decide) (by decide) c hcm)]
    have hdone : List.filter (fun c => decide (c.type = "error")) [doneChunk] = [] := by
      simp [doneChunk]
    rw [hdone]
    rcases htl with h0 | ⟨c0, h0, _⟩
    · simp [h0]
    · rw [h0]
      simpa using List.length_filter_le (fun c => decide (c.type = "error")) [c0]
  · intro c hcm hce
    have hc_tl : c ∈ tl := by
      rcases List.mem_append.mp hcm with h | h
      · rcases List.mem_append.mp h with h2 | h2
        · exact absurd hce (hpre_not "error" (by decide) (by decide) c h2)
        · exact h2
      · simp only [List.mem_singleton] at h
        subst h
        simp [doneChunk] at hce
    rcases htl with h0 | ⟨c0, h0, _⟩
    · rw [h0] at hc_tl; simp at hc_tl
    · rw [h0] at hc_tl
      simp only [List.mem_singleton] at hc_tl
      subst hc_tl
      refine ⟨pre, ?_, hpre⟩
      rw [h0]
      simp

/-- C6: every emitted stream ends with `done` and contains `done` exactly
once (as its final element); every error event in a stream sits
immediately before that final `done`, preceded only by status and
`validation_rejected` events — an uncaught failure while driving the
compiled graph is converted into that single error event rather than
escaping (the executor is a total function of the drive outcome). -/
theorem execute_run_stream_shape (system : SystemConfig) (oracle : Nat → LoopOutcome)
    (prompt : String) :
    ((execute_run system oracle prompt).filter (fun c => c.type = "done") = [doneChunk]) ∧
    (execute_run system oracle prompt).getLast? = some doneChunk ∧
    ((execute_run system oracle prompt).filter (fun c => c.type = "error")).length ≤ 1 ∧
    (∀ c ∈ execute_run system oracle prompt, c.type = "error" →
       ∃ pre2, execute_run system oracle prompt = pre2 ++ [c, doneChunk] ∧
         ∀ c2 ∈ pre2, c2.type = "status" ∨ c2.type = "validation_rejected") := by
  unfold execute_run
  cases hb : (merge_agents system.agents 0 >>= fun agents => build_graph system agents) with
  | error e =>
    have h := stream_shape_assemble []
      [⟨"error", "Graph build error: " ++ pyErrMsg e, none⟩]
      (by intro c hcm; simp at hcm)
      (Or.inr ⟨_, rfl, Or.inl rfl⟩)
    simpa using h
  | ok g =>
    dsimp only
    have h := stream_shape_assemble
      (⟨"status", "Processing request...", none⟩ ::
        (process_loop (drive g oracle RECURSION_LIMIT g.entry (initial_state prompt) 0).1
          ⟨none, none⟩).1)
      (tail_events
        (match (process_loop (drive g oracle RECURSION_LIMIT g.entry (initial_state prompt) 0).1
            ⟨none, none⟩).2.2 with
          | some e => some e
          | none => (drive g oracle RECURSION_LIMIT g.entry (initial_state prompt) 0).2.2)
        (process_loop (drive g oracle RECURSION_LIMIT g.entry (initial_state prompt) 0).1
          ⟨none, none⟩).2.1.finalContent
        (process_loop (drive g oracle RECURSION_LIMIT g.entry (initial_state prompt) 0).1
          ⟨none, none⟩).2.1.lastAgent)
      (by
        intro c hcm
        rcases List.mem_cons.mp hcm with h | h
        · subst h; exact Or.inl rfl
        · exact process_loop_types _ _ c h)
      (tail_events_shape _ _ _)
    simpa using h

/-- Witness for `execute_run_stream_shape`: in the `42` scenario the
uncaught `AttributeError` appears as the single error event immediately
before the final done event, after status events only. -/
theorem execute_run_stream_shape_witness :
    ∃ pre2, execute_run c5System c5Oracle "q" = pre2 ++
        [⟨"error", "Execution error: \x27int\x27 object has no attribute \x27get\x27", none⟩,
         doneChunk] ∧
      ∀ c2 ∈ pre2, c2.type = "status" ∨ c2.type = "validation_rejected" :=
  (execute_run_stream_shape c5System c5Oracle "q").2.2.2
    ⟨"error", "Execution error: \x27int\x27 object has no attribute \x27get\x27", none⟩
    (by decide) rfl

end Engine
